import Mathlib

/-!
Verification of bcbot: risk classification and action escalation.

A shallow embedding of `src/moderation/engine.js` (the rule-based risk
classifier) and `src/bot/actions.js` (the action executor with its
`KICK → MUTE → DELETE` fallback chain), followed by the properties proved
about them.

Conventions of the embedding:

* A JavaScript string that the code inspects character by character (the
  message content and the history entries) is the list of its UTF-16 code
  units, `JsString`.  `content.length` is the length of that list.
* Strings the code only compares or passes on as a whole (risk levels, action
  names, category tags, the reasoning text) are Lean strings.
* Numbers of the input record are non-negative integers, `Nat`.
-/

namespace Bcbot

/-! ## JavaScript strings and the regular expressions of `analyzeContent` -/

/-- UTF-16 code units of a JavaScript string. -/
abbrev JsString := List Nat

/-- Code units of a literal whose characters all lie in the basic plane. -/
def units (s : String) : JsString := s.toList.map Char.toNat

/-- Line terminators, the code units that `.` does not match. -/
def isLineTerminator (c : Nat) : Bool :=
  c == 10 || c == 13 || c == 8232 || c == 8233

/-- Word characters `\w`, that is `[A-Za-z0-9_]`. -/
def isWordChar (c : Nat) : Bool :=
  (48 ≤ c && c ≤ 57) || (65 ≤ c && c ≤ 90) || c == 95 || (97 ≤ c && c ≤ 122)

/-- Upper-case ASCII letters, the class `[A-Z]`. -/
def isUpperAZ (c : Nat) : Bool := 65 ≤ c && c ≤ 90

/-- Case folding of the `i` flag (without `u`), restricted to what matters
when the pattern character is ASCII: a code unit of 128 or more never folds
to an ASCII one, so only `a`-`z` are mapped, to `A`-`Z`. -/
def canonicalize (c : Nat) : Nat := if 97 ≤ c ∧ c ≤ 122 then c - 32 else c

/-- The three shapes of regular expression used by `analyzeContent`. -/
inductive Pattern where
  /-- The pattern `/(.)\1{n,}/`: a code unit other than a line terminator,
  followed by at least `n` more copies of itself. -/
  | repeatedRun (n : Nat)
  /-- The pattern `/a|b|c/gi`: one of the literals occurs, ignoring case. -/
  | anyOf (alts : List String)
  /-- The pattern `/\b(a|b|c)\b/gi`: one of the literals occurs, ignoring
  case, with a word boundary on both sides. -/
  | wordAnyOf (alts : List String)

/-- Whether `s` starts with `n` copies of `c` (the quantified `\1{n,}`). -/
def runAt (c : Nat) : Nat → JsString → Bool
  | 0, _ => true
  | _ + 1, [] => false
  | n + 1, d :: ds => d == c && runAt c n ds

/-- Search of `/(.)\1{n,}/` from every start position. -/
def hasRun (n : Nat) : JsString → Bool
  | [] => false
  | c :: cs => (!isLineTerminator c && runAt c n cs) || hasRun n cs

/-- Whether the literal `w` matches at the start of `s`, ignoring case. -/
def startsWithCI : JsString → JsString → Bool
  | [], _ => true
  | _ :: _, [] => false
  | p :: ps, c :: cs => canonicalize p == canonicalize c && startsWithCI ps cs

/-- Search of `/a|b|c/gi` from every start position. -/
def containsCI (alts : List JsString) : JsString → Bool
  | [] => alts.any (fun w => startsWithCI w [])
  | c :: cs => alts.any (fun w => startsWithCI w (c :: cs)) || containsCI alts cs

/-- The assertion `\b` between the code unit `prev` (absent at the start of
the input) and the input `rest` that follows (empty at the end). -/
def wordBoundary (prev : Option Nat) (rest : JsString) : Bool :=
  (prev.map isWordChar).getD false != (rest.head?.map isWordChar).getD false

/-- The code unit before the position reached after consuming `taken`. -/
def lastUnit (prev : Option Nat) (taken : JsString) : Option Nat :=
  match taken.getLast? with
  | some c => some c
  | none => prev

/-- Whether `\b(w)\b` matches at the start of `s`, which `prev` precedes. -/
def wordMatchAt (prev : Option Nat) (w s : JsString) : Bool :=
  wordBoundary prev s && startsWithCI w s &&
    wordBoundary (lastUnit prev (s.take w.length)) (s.drop w.length)

/-- Search of `/\b(a|b|c)\b/gi` from every start position. -/
def searchWord (alts : List JsString) : Option Nat → JsString → Bool
  | prev, [] => alts.any (fun w => wordMatchAt prev w [])
  | prev, c :: cs =>
    alts.any (fun w => wordMatchAt prev w (c :: cs)) || searchWord alts (some c) cs

/-- The call `pattern.test(content)` on a freshly created regular expression
(its `lastIndex` is 0, so the `g` flag has no effect on the single call). -/
def Pattern.test : Pattern → JsString → Bool
  | .repeatedRun n, content => hasRun n content
  | .anyOf alts, content => containsCI (alts.map units) content
  | .wordAnyOf alts, content => searchWord (alts.map units) none content

/-- The array `spamPatterns`. -/
def spamPatterns : List Pattern :=
  [ .repeatedRun 10,
    .anyOf ["@everyone", "@here"],
    .wordAnyOf ["buy", "shop", "discount", "free", "prize", "winner", "click here",
      "limited time"] ]

/-- The array `scamPatterns`. -/
def scamPatterns : List Pattern :=
  [ .wordAnyOf ["free nitro", "discord nitro", "steam gift", "gift card", "prize"],
    .wordAnyOf ["verify account", "click link", "dm me", "check dm"],
    .anyOf ["bit.ly", "tinyurl", "shorturl"] ]

/-- The array `harassmentPatterns`. -/
def harassmentPatterns : List Pattern :=
  [ .wordAnyOf ["kill yourself", "kys", "die", "h8", "fck", "btch"],
    .wordAnyOf ["idiot", "stupid", "dumb", "loser", "trash"] ]

/-- The loop `patterns.forEach(p => { if (p.test(content)) matches++ })`. -/
def countMatches (patterns : List Pattern) (content : JsString) : Nat :=
  patterns.foldl (fun n p => if p.test content then n + 1 else n) 0

/-! ## The classifier, `engine.js` -/

/-- The record `{ categories, score }` built by each analysis. -/
structure Analysis where
  categories : List String
  score : Nat
deriving DecidableEq, Repr

/-- The pair of statements `categories.push(tag); score += points`. -/
def Analysis.add (a : Analysis) (tag : String) (points : Nat) : Analysis :=
  ⟨a.categories ++ [tag], a.score + points⟩

/-- The test `capsRatio > 0.7` for `capsRatio = caps / length` in doubles.
The quotient is correctly rounded and `0.7` denotes the double nearest to
7/10, so for every length a string can have the comparison holds exactly when
`caps / length > 7/10` as rationals; for length 0 the quotient is `NaN` and
the comparison is false, as is `0 > 0` here. -/
def capsRatioAbove (caps length : Nat) : Bool := decide (7 * length < 10 * caps)

/-- The function `analyzeContent`. -/
def analyzeContent (content : JsString) : Analysis :=
  let a0 : Analysis := ⟨[], 0⟩
  let spamMatches := countMatches spamPatterns content
  let a1 := if spamMatches > 0 then a0.add "SPAM" (spamMatches * 15) else a0
  let scamMatches := countMatches scamPatterns content
  let a2 := if scamMatches > 0 then a1.add "SCAM" (scamMatches * 25) else a1
  let harassmentMatches := countMatches harassmentPatterns content
  let a3 := if harassmentMatches > 0 then a2.add "HARASSMENT" (harassmentMatches * 20) else a2
  let a4 := if content.length > 1500 then a3.add "EXCESSIVE_LENGTH" 10 else a3
  let caps := (content.filter isUpperAZ).length
  if capsRatioAbove caps content.length && decide (content.length > 20) then
    a4.add "EXCESSIVE_CAPS" 10
  else a4

/-- The function `analyzeBehavior`; `toLowerCase` is the runtime's
`String.prototype.toLowerCase`. -/
def analyzeBehavior (toLowerCase : JsString → JsString)
    (messageHistory : List JsString) (currentMessage : JsString) : Analysis :=
  let a0 : Analysis := ⟨[], 0⟩
  let a1 :=
    if messageHistory.length ≥ 3 then
      let recentMessages := messageHistory.take 3
      let allSimilar := recentMessages.all
        (fun msg => decide (toLowerCase msg = toLowerCase currentMessage))
      if allSimilar then a0.add "REPETITIVE_MESSAGING" 20 else a0
    else a0
  if messageHistory.length ≥ 5 then a1.add "RAPID_MESSAGING" 15 else a1

/-- The function `analyzeAccount`. -/
def analyzeAccount (accountAgeDays joinAgeMinutes : Nat) : Analysis :=
  let a0 : Analysis := ⟨[], 0⟩
  let a1 :=
    if accountAgeDays < 1 then a0.add "VERY_NEW_ACCOUNT" 20
    else if accountAgeDays < 7 then a0.add "NEW_ACCOUNT" 10
    else a0
  if joinAgeMinutes < 5 then a1.add "IMMEDIATE_POST_JOIN" 15
  else if joinAgeMinutes < 30 then a1.add "RECENT_JOIN" 8
  else a1

/-- The function `analyzeAttachments`. -/
def analyzeAttachments (hasAttachments hasLinks hasImages : Bool) : Analysis :=
  let a0 : Analysis := ⟨[], 0⟩
  let a1 := if hasLinks then a0.add "CONTAINS_LINKS" 10 else a0
  if hasAttachments || hasImages then a1.add "HAS_ATTACHMENTS" 5 else a1

/-- The function `determineRiskLevel`. -/
def determineRiskLevel (score : Nat) : String :=
  if score ≤ 30 then "SAFE"
  else if score ≤ 65 then "SUSPICIOUS"
  else "DANGEROUS"

/-- The function `determineAction`. -/
def determineAction (score : Nat) (riskLevel : String) (warningCount : Nat) : String :=
  if riskLevel = "SAFE" then "ALLOW"
  else if riskLevel = "SUSPICIOUS" then
    if warningCount = 0 then "WARN"
    else if warningCount = 1 then "DELETE"
    else "MUTE"
  else if riskLevel = "DANGEROUS" then
    if score ≥ 85 ∧ warningCount ≥ 2 then "KICK"
    else if score ≥ 70 then "MUTE"
    else "DELETE"
  else "WARN"

/-- The function `generateReasoning`. -/
def generateReasoning (score : Nat) (level : String) (categories : List String)
    (warningCount : Nat) : String :=
  let r0 := "Risk assessment: " ++ toString score ++ "/100 (" ++ level ++ "). "
  if categories.length = 0 then
    r0 ++ "No violations detected. Message appears safe."
  else
    let r1 := r0 ++ "Detected: " ++ ", ".intercalate categories ++ ". "
    let r2 :=
      if warningCount > 0 then
        r1 ++ "User has " ++ toString warningCount ++ " previous warning(s). "
      else r1
    if level = "SUSPICIOUS" then
      r2 ++ "Monitoring user activity. Warning issued for borderline content."
    else if level = "DANGEROUS" then
      r2 ++ "High confidence violation detected. Immediate action required to protect community."
    else r2

/-- The input record of `analyzeMessage`. -/
structure ModerationInput where
  message_content : JsString
  message_history : List JsString
  user_account_age_days : Nat
  server_join_age_minutes : Nat
  attachments_present : Bool
  links_present : Bool
  image_uploaded : Bool
  previous_warnings_count : Nat
  captcha_verified : Bool

/-- The record returned by `analyzeMessage`. -/
structure ModerationResult where
  risk_score : Nat
  risk_level : String
  detected_categories : List String
  recommended_action : String
  reasoning : String
deriving DecidableEq, Repr

/-- The function `shouldRequireCaptcha`. -/
def shouldRequireCaptcha (input : ModerationInput) : Bool :=
  if input.captcha_verified then false
  else
    decide (input.user_account_age_days < 7) ||
    decide (input.server_join_age_minutes < 10) ||
    decide (input.previous_warnings_count > 0)

/-- The fixed record returned when the CAPTCHA gate triggers. -/
def captchaResult : ModerationResult :=
  { risk_score := 50
    risk_level := "SUSPICIOUS"
    detected_categories := ["NEW_USER_UNVERIFIED"]
    recommended_action := "CAPTCHA"
    reasoning := "New or flagged user has not completed CAPTCHA verification. Temporarily restricting messaging until verification is complete." }

/-- The sum `riskScore` of `analyzeMessage` before it is clamped. -/
def rawScore (toLowerCase : JsString → JsString) (input : ModerationInput) : Nat :=
  let s1 := 0 + (analyzeContent input.message_content).score
  let s2 := s1 + (analyzeBehavior toLowerCase input.message_history input.message_content).score
  let s3 := s2 + (analyzeAccount input.user_account_age_days input.server_join_age_minutes).score
  let s4 := s3 +
    (analyzeAttachments input.attachments_present input.links_present input.image_uploaded).score
  if input.previous_warnings_count > 0 then
    s4 + min (input.previous_warnings_count * 10) 25
  else s4

/-- The list `detectedCategories` of `analyzeMessage`. -/
def allCategories (toLowerCase : JsString → JsString) (input : ModerationInput) : List String :=
  let c1 := [] ++ (analyzeContent input.message_content).categories
  let c2 := c1 ++
    (analyzeBehavior toLowerCase input.message_history input.message_content).categories
  let c3 := c2 ++
    (analyzeAccount input.user_account_age_days input.server_join_age_minutes).categories
  let c4 := c3 ++
    (analyzeAttachments input.attachments_present input.links_present
      input.image_uploaded).categories
  if input.previous_warnings_count > 0 then c4 ++ ["REPEAT_OFFENDER"] else c4

/-- The function `analyzeMessage`; `toLowerCase` is the runtime's
`String.prototype.toLowerCase`, used by `analyzeBehavior`. -/
def analyzeMessage (toLowerCase : JsString → JsString) (input : ModerationInput) :
    ModerationResult :=
  if shouldRequireCaptcha input then captchaResult
  else
    let detectedCategories := allCategories toLowerCase input
    let riskScore := min (max (rawScore toLowerCase input) 0) 100
    let riskLevel := determineRiskLevel riskScore
    let recommendedAction := determineAction riskScore riskLevel input.previous_warnings_count
    let reasoning :=
      generateReasoning riskScore riskLevel detectedCategories input.previous_warnings_count
    { risk_score := riskScore
      risk_level := riskLevel
      detected_categories := detectedCategories
      recommended_action := recommendedAction
      reasoning := reasoning }

/-- ASCII lower-casing, the restriction of `toLowerCase` to ASCII text; used
to instantiate the runtime function on concrete ASCII inputs. -/
def asciiLower (s : JsString) : JsString :=
  s.map (fun c => if 65 ≤ c ∧ c ≤ 90 then c + 32 else c)

/-! ## The action executor, `actions.js`

The handlers are asynchronous functions whose only interaction with the
platform is a sequence of awaited operations, each of which resolves or
rejects.  A run is modelled by the trace of attempted operations; the
platform is an oracle that answers, from the trace so far, whether the next
operation resolves.  Calls to `console` and the `setTimeout` registrations
(which delete a posted notice after the handler has finished) neither throw
nor await, and are left out of the trace.  Messages reach `executeAction`
only from a guild (`discord-bot.js` returns early otherwise), so building the
notice texts from `message.author`, `message.guild` and `message.channel`
does not throw. -/

/-- The platform operations the handlers await. -/
inductive Op where
  /-- The call `message.delete()`. -/
  | messageDelete
  /-- The call `message.channel.send(...)`, the public notice. -/
  | channelSend
  /-- The call `member.timeout(...)`. -/
  | memberTimeout
  /-- The call `member.kick(...)`. -/
  | memberKick
  /-- The call `message.author.send(...)`, the private notice. -/
  | authorSend
  /-- The call `modChannel.send(...)` on the moderation-log channel. -/
  | modLogSend
deriving DecidableEq, Repr

/-- One attempted platform operation and whether its promise resolved. -/
structure Event where
  op : Op
  ok : Bool
deriving DecidableEq, Repr

/-- The platform operations attempted so far, oldest first. -/
abbrev Trace := List Event

/-- The getters of a guild member that the handlers read. -/
structure Member where
  moderatable : Bool
  kickable : Bool
deriving DecidableEq, Repr

/-- A channel of `guild.channels.cache`. -/
structure Channel where
  name : String
  isTextBased : Bool
deriving DecidableEq, Repr

/-- What one call of `executeAction` sees of the platform: the member
(`none` when the argument is null), the guild's channels, the value the
getter `message.deletable` has after a given trace, and whether an operation
attempted after a given trace resolves (`true`) or rejects (`false`). -/
structure Session where
  member : Option Member
  channels : List Channel
  deletable : Trace → Bool
  resolves : Trace → Op → Bool

/-- How a piece of asynchronous code completes. -/
inductive Completion (α : Type) where
  /-- The promise resolves to a value. -/
  | resolved (value : α)
  /-- The promise rejects: an exception propagates. -/
  | rejected
deriving DecidableEq, Repr

/-- Asynchronous code run from a trace: its completion and the extended trace. -/
def Exec (α : Type) : Type := Trace → Completion α × Trace

/-- Sequencing of awaited code: a rejection skips what follows. -/
def Exec.bind {α β : Type} (m : Exec α) (f : α → Exec β) : Exec β := fun t =>
  match m t with
  | (.resolved a, t1) => f a t1
  | (.rejected, t1) => (.rejected, t1)

instance : Monad Exec where
  pure a := fun t => (.resolved a, t)
  bind := Exec.bind

/-- The statement `try { body } catch (error) { handler }`. -/
def Exec.tryCatch {α : Type} (body handler : Exec α) : Exec α := fun t =>
  match body t with
  | (.resolved a, t1) => (.resolved a, t1)
  | (.rejected, t1) => handler t1

/-- Awaiting one platform operation. -/
def Session.attempt (s : Session) (op : Op) : Exec Unit := fun t =>
  if s.resolves t op then (.resolved (), t ++ [⟨op, true⟩])
  else (.rejected, t ++ [⟨op, false⟩])

/-- Reading the getter `message.deletable`. -/
def Session.readDeletable (s : Session) : Exec Bool := fun t =>
  (.resolved (s.deletable t), t)

/-- The statement `if (message.deletable) { await message.delete(); }`. -/
def deleteIfDeletable (s : Session) : Exec Unit := do
  if (← s.readDeletable) then s.attempt .messageDelete

/-- The statement `try { await message.author.send(...) } catch (dmError) { }`. -/
def tryPrivateNotice (s : Session) : Exec Unit :=
  Exec.tryCatch (s.attempt .authorSend) (pure ())

/-- The list `possibleNames` of `findModLogChannel`. -/
def possibleNames : List String := ["mod-log", "modlog", "mod-logs", "audit-log", "logs"]

/-- The function `findModLogChannel`, on `guild.channels.cache`. -/
def findModLogChannel (channels : List Channel) : Option Channel :=
  possibleNames.findSome? fun name =>
    channels.find? fun ch => ch.name == name && ch.isTextBased

/-- The test `member && member.moderatable`. -/
def canModerate (member : Option Member) : Bool :=
  match member with
  | none => false
  | some m => m.moderatable

/-- The function `handleCaptchaRequired`. -/
def handleCaptchaRequired (s : Session) : Exec Unit :=
  Exec.tryCatch
    (do
      deleteIfDeletable s
      s.attempt .channelSend
      if canModerate s.member then s.attempt .memberTimeout)
    (pure ())

/-- The function `handleWarn`. -/
def handleWarn (s : Session) : Exec Unit :=
  Exec.tryCatch (s.attempt .channelSend) (pure ())

/-- The function `handleDelete`. -/
def handleDelete (s : Session) : Exec Unit :=
  Exec.tryCatch
    (do
      deleteIfDeletable s
      s.attempt .channelSend
      tryPrivateNotice s)
    (pure ())

/-- The test `!member || !member.moderatable`. -/
def cannotModerate (member : Option Member) : Bool :=
  match member with
  | none => true
  | some m => !m.moderatable

/-- The test `!member || !member.kickable`. -/
def cannotKick (member : Option Member) : Bool :=
  match member with
  | none => true
  | some m => !m.kickable

/-- The function `handleMute`. -/
def handleMute (s : Session) : Exec Unit :=
  Exec.tryCatch
    (do
      deleteIfDeletable s
      if cannotModerate s.member then
        handleDelete s
      else do
        s.attempt .memberTimeout
        s.attempt .channelSend
        tryPrivateNotice s)
    (handleDelete s)

/-- The function `handleKick`. -/
def handleKick (s : Session) : Exec Unit :=
  Exec.tryCatch
    (do
      deleteIfDeletable s
      if cannotKick s.member then
        handleMute s
      else do
        tryPrivateNotice s
        s.attempt .memberKick
        s.attempt .channelSend
        match findModLogChannel s.channels with
        | some _ => s.attempt .modLogSend
        | none => pure ())
    (handleMute s)

/-- The function `executeAction`; the session stands for its `message` and
`member` arguments. -/
def executeAction (s : Session) (moderationResult : ModerationResult) : Exec String :=
  let recommended_action := moderationResult.recommended_action
  Exec.tryCatch
    (if recommended_action = "ALLOW" then pure "ALLOW"
     else if recommended_action = "CAPTCHA" then do
       handleCaptchaRequired s
       pure "CAPTCHA"
     else if recommended_action = "WARN" then do
       handleWarn s
       pure "WARN"
     else if recommended_action = "DELETE" then do
       handleDelete s
       pure "DELETE"
     else if recommended_action = "MUTE" then do
       handleMute s
       pure "MUTE"
     else if recommended_action = "KICK" then do
       handleKick s
       pure "KICK"
     else pure "ALLOW")
    (pure "ERROR")


/-! ## Definitions used to state the properties -/

/-- Rank of a risk level in the order SAFE < SUSPICIOUS < DANGEROUS. -/
def levelRank (level : String) : Nat :=
  if level = "SAFE" then 0 else if level = "SUSPICIOUS" then 1 else 2

/-- Number of patterns of a family that match the content. -/
def matching (patterns : List Pattern) (content : JsString) : Nat :=
  patterns.countP (fun p => p.test content)

/-- The value 1 when the condition holds, 0 otherwise. -/
def ind (p : Prop) [Decidable p] : Nat := if p then 1 else 0

/-- The score of a message on which the CAPTCHA gate does not trigger, as the
specification states it. -/
def specScore (toLowerCase : JsString → JsString) (input : ModerationInput) : Nat :=
  let content := input.message_content
  let history := input.message_history
  let age := input.user_account_age_days
  let join := input.server_join_age_minutes
  let warnings := input.previous_warnings_count
  let s := matching spamPatterns content
  let c := matching scamPatterns content
  let h := matching harassmentPatterns content
  let length := content.length
  let upper := (content.filter isUpperAZ).length
  min 100
    (15 * s + 25 * c + 20 * h
      + ind (length > 1500) * 10
      + ind (length > 20 ∧ (upper : ℚ) / (length : ℚ) > 7 / 10) * 10
      + ind (history.length ≥ 3 ∧
          ∀ msg ∈ history.take 3, toLowerCase msg = toLowerCase content) * 20
      + ind (history.length ≥ 5) * 15
      + (if age < 1 then 20 else if age < 7 then 10 else 0)
      + (if join < 5 then 15 else if join < 30 then 8 else 0)
      + ind (input.links_present = true) * 10
      + ind (input.attachments_present = true ∨ input.image_uploaded = true) * 5
      + (if warnings > 0 then min (10 * warnings) 25 else 0))

/-- The events that `deleteIfDeletable` appends to the trace `t`. -/
def firstDelete (s : Session) (t : Trace) : Trace :=
  if s.deletable t then [⟨.messageDelete, s.resolves t .messageDelete⟩] else []

/-- The events `handleCaptchaRequired` appends when run from the trace `t`. -/
def captchaEvents (s : Session) (t : Trace) : Trace :=
  let d1 := firstDelete s t
  if s.deletable t = true ∧ s.resolves t .messageDelete = false then d1
  else
    let t1 := t ++ d1
    if s.resolves t1 .channelSend then
      let t2 := t1 ++ [⟨.channelSend, true⟩]
      if canModerate s.member then
        d1 ++ [⟨.channelSend, true⟩, ⟨.memberTimeout, s.resolves t2 .memberTimeout⟩]
      else d1 ++ [⟨.channelSend, true⟩]
    else d1 ++ [⟨.channelSend, false⟩]

/-- The events `handleDelete` appends when run from the trace `t`. -/
def deleteEvents (s : Session) (t : Trace) : Trace :=
  let d1 := firstDelete s t
  if s.deletable t = true ∧ s.resolves t .messageDelete = false then d1
  else
    let t1 := t ++ d1
    if s.resolves t1 .channelSend then
      let t2 := t1 ++ [⟨.channelSend, true⟩]
      d1 ++ [⟨.channelSend, true⟩, ⟨.authorSend, s.resolves t2 .authorSend⟩]
    else d1 ++ [⟨.channelSend, false⟩]

/-- The events `handleMute` appends when run from the trace `t`. -/
def muteEvents (s : Session) (t : Trace) : Trace :=
  let d1 := firstDelete s t
  let t1 := t ++ d1
  if s.deletable t = true ∧ s.resolves t .messageDelete = false then
    d1 ++ deleteEvents s t1
  else if cannotModerate s.member then d1 ++ deleteEvents s t1
  else if s.resolves t1 .memberTimeout then
    let t2 := t1 ++ [⟨.memberTimeout, true⟩]
    if s.resolves t2 .channelSend then
      let t3 := t2 ++ [⟨.channelSend, true⟩]
      d1 ++ [⟨.memberTimeout, true⟩, ⟨.channelSend, true⟩,
        ⟨.authorSend, s.resolves t3 .authorSend⟩]
    else
      d1 ++ ([⟨.memberTimeout, true⟩, ⟨.channelSend, false⟩] ++
        deleteEvents s (t2 ++ [⟨.channelSend, false⟩]))
  else d1 ++ ([⟨.memberTimeout, false⟩] ++ deleteEvents s (t1 ++ [⟨.memberTimeout, false⟩]))

/-- The events `handleKick` appends when run from the trace `t`. -/
def kickEvents (s : Session) (t : Trace) : Trace :=
  let d1 := firstDelete s t
  let t1 := t ++ d1
  if s.deletable t = true ∧ s.resolves t .messageDelete = false then
    d1 ++ muteEvents s t1
  else if cannotKick s.member then d1 ++ muteEvents s t1
  else
    let dm : Event := ⟨.authorSend, s.resolves t1 .authorSend⟩
    let t2 := t1 ++ [dm]
    if s.resolves t2 .memberKick then
      let t3 := t2 ++ [⟨.memberKick, true⟩]
      if s.resolves t3 .channelSend then
        let t4 := t3 ++ [⟨.channelSend, true⟩]
        if (findModLogChannel s.channels).isSome then
          if s.resolves t4 .modLogSend then
            d1 ++ [dm, ⟨.memberKick, true⟩, ⟨.channelSend, true⟩, ⟨.modLogSend, true⟩]
          else
            d1 ++ ([dm, ⟨.memberKick, true⟩, ⟨.channelSend, true⟩, ⟨.modLogSend, false⟩] ++
              muteEvents s (t4 ++ [⟨.modLogSend, false⟩]))
        else d1 ++ [dm, ⟨.memberKick, true⟩, ⟨.channelSend, true⟩]
      else
        d1 ++ ([dm, ⟨.memberKick, true⟩, ⟨.channelSend, false⟩] ++
          muteEvents s (t3 ++ [⟨.channelSend, false⟩]))
    else d1 ++ ([dm, ⟨.memberKick, false⟩] ++ muteEvents s (t2 ++ [⟨.memberKick, false⟩]))

/-- The trace of a kick that goes well up to and including the public
notice: the optional delete, the private notice, the kick, the notice. -/
def kickedAndNotified (s : Session) : Trace :=
  firstDelete s [] ++
    [⟨.authorSend, s.resolves (firstDelete s []) .authorSend⟩, ⟨.memberKick, true⟩,
      ⟨.channelSend, true⟩]

/-- All concatenations of a trace of `xs` with a trace of `ys`. -/
def seqShapes (xs ys : List Trace) : List Trace :=
  xs.flatMap fun x => ys.map fun y => x ++ y

/-- What `deleteIfDeletable` can append when it resolves. -/
def optDeleteShapes : List Trace := [[], [⟨.messageDelete, true⟩]]

/-- What `tryPrivateNotice` can append. -/
def privateShapes : List Trace := [[⟨.authorSend, true⟩], [⟨.authorSend, false⟩]]

/-- Every sequence of events `handleCaptchaRequired` can append. -/
def captchaShapes : List Trace :=
  [[⟨.messageDelete, false⟩]] ++
    seqShapes optDeleteShapes
      [[⟨.channelSend, false⟩], [⟨.channelSend, true⟩],
        [⟨.channelSend, true⟩, ⟨.memberTimeout, true⟩],
        [⟨.channelSend, true⟩, ⟨.memberTimeout, false⟩]]

/-- Every sequence of events `handleWarn` can append. -/
def warnShapes : List Trace := [[⟨.channelSend, true⟩], [⟨.channelSend, false⟩]]

/-- Every sequence of events `handleDelete` can append. -/
def deleteShapes : List Trace :=
  [[⟨.messageDelete, false⟩]] ++
    seqShapes optDeleteShapes
      ([[⟨.channelSend, false⟩]] ++ seqShapes [[⟨.channelSend, true⟩]] privateShapes)

/-- Every sequence of events `handleMute` can append. -/
def muteShapes : List Trace :=
  seqShapes [[⟨.messageDelete, false⟩]] deleteShapes ++
    seqShapes optDeleteShapes
      (deleteShapes ++
        seqShapes [[⟨.memberTimeout, false⟩]] deleteShapes ++
        seqShapes [[⟨.memberTimeout, true⟩, ⟨.channelSend, false⟩]] deleteShapes ++
        seqShapes [[⟨.memberTimeout, true⟩, ⟨.channelSend, true⟩]] privateShapes)

/-- Every sequence of events `handleKick` can append. -/
def kickShapes : List Trace :=
  seqShapes [[⟨.messageDelete, false⟩]] muteShapes ++
    seqShapes optDeleteShapes
      (muteShapes ++
        seqShapes privateShapes
          (seqShapes [[⟨.memberKick, false⟩]] muteShapes ++
            seqShapes [[⟨.memberKick, true⟩, ⟨.channelSend, false⟩]] muteShapes ++
            [[⟨.memberKick, true⟩, ⟨.channelSend, true⟩],
              [⟨.memberKick, true⟩, ⟨.channelSend, true⟩, ⟨.modLogSend, true⟩]] ++
            seqShapes
              [[⟨.memberKick, true⟩, ⟨.channelSend, true⟩, ⟨.modLogSend, false⟩]]
              muteShapes))

/-- Every trace one call of `executeAction` can produce. -/
def executeShapes : List Trace :=
  [[]] ++ captchaShapes ++ warnShapes ++ deleteShapes ++ muteShapes ++ kickShapes

/-- No message-deletion attempt comes after a posted public notice. -/
def DeletesPrecedeNotices (tr : Trace) : Prop :=
  tr.Pairwise fun earlier later =>
    ¬ (earlier = ⟨.channelSend, true⟩ ∧ later.op = .messageDelete)

/-- No message-deletion attempt comes after a rejected send to the
moderation-log channel. -/
def NoDeleteAfterLogFailure (tr : Trace) : Prop :=
  tr.Pairwise fun earlier later =>
    ¬ (earlier = ⟨.modLogSend, false⟩ ∧ later.op = .messageDelete)

/-- No private-notice attempt comes after a kick attempt, whether the kick
resolved or rejected. -/
def PrivateNoticesPrecedeKick (tr : Trace) : Prop :=
  tr.Pairwise fun earlier later => ¬ (earlier.op = .memberKick ∧ later.op = .authorSend)

/-- The kick attempt, if there is one, resolves, and so does every operation
attempted after it. -/
def KickAndRestResolve (tr : Trace) : Prop :=
  ⟨.memberKick, false⟩ ∉ tr ∧
    tr.Pairwise fun earlier later => ¬ (earlier.op = .memberKick ∧ later.ok = false)

/-- A kick is attempted at most once, it is not the first operation, and the
operation directly before it is a private-notice attempt. -/
def KickFollowsPrivateNotice (tr : Trace) : Prop :=
  tr.countP (fun e => e.op == .memberKick) ≤ 1 ∧
    (∀ first ∈ tr.head?, first.op ≠ .memberKick) ∧
    ∀ pair ∈ tr.zip (tr.drop 1), pair.2.op = .memberKick → pair.1.op = .authorSend

instance (tr : Trace) : Decidable (DeletesPrecedeNotices tr) := by
  unfold DeletesPrecedeNotices; infer_instance

instance (tr : Trace) : Decidable (NoDeleteAfterLogFailure tr) := by
  unfold NoDeleteAfterLogFailure; infer_instance

instance (tr : Trace) : Decidable (PrivateNoticesPrecedeKick tr) := by
  unfold PrivateNoticesPrecedeKick; infer_instance

instance (tr : Trace) : Decidable (KickAndRestResolve tr) := by
  unfold KickAndRestResolve; infer_instance

instance (tr : Trace) : Decidable (KickFollowsPrivateNotice tr) := by
  unfold KickFollowsPrivateNotice; infer_instance

/-- Whether a channel is text-based and carries the given name. -/
def isTextNamed (name : String) (ch : Channel) : Prop :=
  ch.name = name ∧ ch.isTextBased = true

/-! ### Concrete inputs -/

/-- Scenario 5 of the specification: a verified user with a day-old account
and two warnings posts two kinds of insult and a social-engineering phrase. -/
def scenario5 : ModerationInput :=
  { message_content := units "kys you idiot, dm me"
    message_history := []
    user_account_age_days := 0
    server_join_age_minutes := 45
    attachments_present := false
    links_present := false
    image_uploaded := false
    previous_warnings_count := 2
    captcha_verified := true }

/-- The message of scenario 5 from a user who has not passed the CAPTCHA. -/
def unverifiedOffender : ModerationInput :=
  { scenario5 with captcha_verified := false }

/-- A moderation result that recommends the given action. -/
def resultWith (action : String) : ModerationResult :=
  { risk_score := 100
    risk_level := "DANGEROUS"
    detected_categories := ["HARASSMENT"]
    recommended_action := action
    reasoning := "Risk assessment: 100/100 (DANGEROUS). " }

/-- A session without member in which the message stays deletable and every
operation resolves. -/
def absentMemberSession : Session :=
  { member := none
    channels := []
    deletable := fun _ => true
    resolves := fun _ _ => true }

/-- A session whose member can be neither moderated nor kicked; every
operation resolves. -/
def protectedMemberSession : Session :=
  { member := some { moderatable := false, kickable := false }
    channels := []
    deletable := fun _ => true
    resolves := fun _ _ => true }

/-- A session whose member can be timed out but not kicked; every operation
resolves. -/
def unkickableMemberSession : Session :=
  { member := some { moderatable := true, kickable := false }
    channels := []
    deletable := fun _ => true
    resolves := fun _ _ => true }

/-- A session with a kickable member and a `logs` channel in which every
operation resolves. -/
def smoothSession : Session :=
  { member := some { moderatable := true, kickable := true }
    channels := [{ name := "general", isTextBased := true }, { name := "logs", isTextBased := true }]
    deletable := fun _ => true
    resolves := fun _ _ => true }

/-- The session `smoothSession`, except that sending to the moderation-log
channel rejects. -/
def modLogFailSession : Session :=
  { smoothSession with resolves := fun _ op => op != .modLogSend }

/-- The session `smoothSession`, except that the first public notice rejects
(the later ones resolve). -/
def noticeFailSession : Session :=
  { smoothSession with
    resolves := fun t op => op != .channelSend || t.contains ⟨.channelSend, false⟩ }

/-- The session `smoothSession`, except that the kick rejects. -/
def kickFailSession : Session :=
  { smoothSession with resolves := fun _ op => op != .memberKick }

/-- A session with a kickable member that cannot be timed out, in which the
message is never deletable and every public notice rejects. -/
def noticesFailSession : Session :=
  { member := some { moderatable := false, kickable := true }
    channels := []
    deletable := fun _ => false
    resolves := fun _ op => op != .channelSend }

/-- A guild whose `mod-log` is a voice channel and which has two text
channels with conventional names, in reverse priority order. -/
def sampleChannels : List Channel :=
  [ { name := "mod-log", isTextBased := false },
    { name := "general", isTextBased := true },
    { name := "logs", isTextBased := true },
    { name := "audit-log", isTextBased := true } ]

/-- An input with empty content and empty history from a verified user. -/
def degenerateInput : ModerationInput :=
  { message_content := []
    message_history := []
    user_account_age_days := 3
    server_join_age_minutes := 2
    attachments_present := true
    links_present := false
    image_uploaded := false
    previous_warnings_count := 4
    captcha_verified := true }

/-- A session whose member can be timed out but not kicked, in which the
message stays deletable, the first `message.delete()` resolves and every
later one rejects; every other operation resolves. -/
def deleteOnceSession : Session :=
  { member := some { moderatable := true, kickable := false }
    channels := []
    deletable := fun _ => true
    resolves := fun t op => op != .messageDelete || !t.contains ⟨.messageDelete, true⟩ }

/-! ## Lemmas about the classifier -/

theorem countMatches_foldl (content : JsString) (patterns : List Pattern) (k : Nat) :
    patterns.foldl (fun n p => if p.test content then n + 1 else n) k =
      k + patterns.countP (fun p => p.test content) := by
  induction patterns generalizing k with
  | nil => simp
  | cons p ps ih =>
    by_cases h : p.test content
    · simp [h, ih]; omega
    · simp [h, ih]

theorem determineRiskLevel_safe (s : Nat) : determineRiskLevel s = "SAFE" ↔ s ≤ 30 := by
  unfold determineRiskLevel
  split_ifs <;> simp <;> omega

theorem determineRiskLevel_suspicious (s : Nat) :
    determineRiskLevel s = "SUSPICIOUS" ↔ 30 < s ∧ s ≤ 65 := by
  unfold determineRiskLevel
  split_ifs <;> simp <;> omega

theorem determineRiskLevel_dangerous (s : Nat) :
    determineRiskLevel s = "DANGEROUS" ↔ 65 < s := by
  unfold determineRiskLevel
  split_ifs <;> simp <;> omega

theorem determineRiskLevel_mono (s1 s2 : Nat) (h : s1 ≤ s2) :
    levelRank (determineRiskLevel s1) ≤ levelRank (determineRiskLevel s2) := by
  unfold determineRiskLevel
  split_ifs <;> first | omega | decide

theorem analyzeMessage_level (toLowerCase : JsString → JsString) (input : ModerationInput) :
    (analyzeMessage toLowerCase input).risk_level =
      determineRiskLevel (analyzeMessage toLowerCase input).risk_score := by
  unfold analyzeMessage
  split
  · simp [captchaResult, determineRiskLevel]
  · rfl

theorem capsRatioAbove_iff (caps length : Nat) (h : 0 < length) :
    capsRatioAbove caps length = true ↔ (caps : ℚ) / (length : ℚ) > 7 / 10 := by
  have hl : (0 : ℚ) < (length : ℚ) := by exact_mod_cast h
  unfold capsRatioAbove
  rw [decide_eq_true_iff, gt_iff_lt, div_lt_div_iff₀ (by norm_num) hl]
  constructor
  · intro h1
    have : ((7 * length : ℕ) : ℚ) < ((10 * caps : ℕ) : ℚ) := by exact_mod_cast h1
    push_cast at this
    linarith
  · intro h1
    have : ((7 * length : ℕ) : ℚ) < ((10 * caps : ℕ) : ℚ) := by
      push_cast
      linarith
    exact_mod_cast this

theorem analyzeContent_score (content : JsString) :
    (analyzeContent content).score =
      15 * matching spamPatterns content + 25 * matching scamPatterns content
        + 20 * matching harassmentPatterns content
        + ind (content.length > 1500) * 10
        + ind (content.length > 20 ∧
            ((content.filter isUpperAZ).length : ℚ) / (content.length : ℚ) > 7 / 10) * 10 := by
  have hcaps : (capsRatioAbove (content.filter isUpperAZ).length content.length
        && decide (content.length > 20)) = true ↔
      (content.length > 20 ∧
        ((content.filter isUpperAZ).length : ℚ) / (content.length : ℚ) > 7 / 10) := by
    rw [Bool.and_eq_true, decide_eq_true_iff]
    constructor
    · rintro ⟨h1, h2⟩
      exact ⟨h2, (capsRatioAbove_iff _ _ (by omega)).1 h1⟩
    · rintro ⟨h1, h2⟩
      exact ⟨(capsRatioAbove_iff _ _ (by omega)).2 h2, h1⟩
  simp only [analyzeContent, countMatches, countMatches_foldl, Analysis.add, matching, ind,
    Nat.zero_add, ← hcaps]
  split_ifs <;> dsimp only <;> omega

theorem analyzeBehavior_score (toLowerCase : JsString → JsString)
    (history : List JsString) (content : JsString) :
    (analyzeBehavior toLowerCase history content).score =
      ind (history.length ≥ 3 ∧
          ∀ msg ∈ history.take 3, toLowerCase msg = toLowerCase content) * 20
        + ind (history.length ≥ 5) * 15 := by
  simp only [analyzeBehavior, Analysis.add, ind, List.all_eq_true, decide_eq_true_iff]
  split_ifs <;> first | (dsimp only; done) | (dsimp only; omega) | tauto

theorem analyzeAccount_score (age join : Nat) :
    (analyzeAccount age join).score =
      (if age < 1 then 20 else if age < 7 then 10 else 0)
        + (if join < 5 then 15 else if join < 30 then 8 else 0) := by
  simp only [analyzeAccount, Analysis.add]
  split_ifs <;> dsimp only

theorem analyzeAttachments_score (hasAttachments hasLinks hasImages : Bool) :
    (analyzeAttachments hasAttachments hasLinks hasImages).score =
      ind (hasLinks = true) * 10 + ind (hasAttachments = true ∨ hasImages = true) * 5 := by
  cases hasAttachments <;> cases hasLinks <;> cases hasImages <;> rfl

/-! ## Lemmas about the executor -/

theorem bind_apply {α β : Type} (m : Exec α) (f : α → Exec β) (t : Trace) :
    (m >>= f) t =
      match m t with
      | (.resolved a, t1) => f a t1
      | (.rejected, t1) => (.rejected, t1) := rfl

theorem pure_apply {α : Type} (a : α) (t : Trace) :
    (pure a : Exec α) t = (.resolved a, t) := rfl

theorem tryCatch_apply {α : Type} (body handler : Exec α) (t : Trace) :
    Exec.tryCatch body handler t =
      match body t with
      | (.resolved a, t1) => (.resolved a, t1)
      | (.rejected, t1) => handler t1 := rfl

theorem attempt_apply (s : Session) (op : Op) (t : Trace) :
    s.attempt op t =
      if s.resolves t op then (.resolved (), t ++ [⟨op, true⟩])
      else (.rejected, t ++ [⟨op, false⟩]) := rfl

theorem deleteIfDeletable_apply (s : Session) (t : Trace) :
    deleteIfDeletable s t =
      (if s.deletable t = true ∧ s.resolves t .messageDelete = false then .rejected
        else .resolved (), t ++ firstDelete s t) := by
  unfold deleteIfDeletable firstDelete
  simp only [bind_apply, Session.readDeletable, attempt_apply, pure_apply]
  by_cases h1 : s.deletable t <;> by_cases h2 : s.resolves t .messageDelete <;>
    simp [h1, h2, attempt_apply, pure_apply]

theorem tryPrivateNotice_apply (s : Session) (t : Trace) :
    tryPrivateNotice s t = (.resolved (), t ++ [⟨.authorSend, s.resolves t .authorSend⟩]) := by
  unfold tryPrivateNotice
  simp only [tryCatch_apply, attempt_apply, pure_apply]
  by_cases h : s.resolves t .authorSend <;> simp [h]

theorem handleDelete_apply (s : Session) (t : Trace) :
    handleDelete s t = (.resolved (), t ++ deleteEvents s t) := by
  unfold handleDelete deleteEvents
  simp only [tryCatch_apply, bind_apply, deleteIfDeletable_apply, attempt_apply,
    tryPrivateNotice_apply, pure_apply]
  split_ifs <;> simp_all

theorem handleMute_apply (s : Session) (t : Trace) :
    handleMute s t = (.resolved (), t ++ muteEvents s t) := by
  unfold handleMute muteEvents
  simp only [tryCatch_apply, bind_apply, deleteIfDeletable_apply, attempt_apply,
    tryPrivateNotice_apply, pure_apply]
  split_ifs <;> simp_all [handleDelete_apply, bind_apply, attempt_apply, tryPrivateNotice_apply]

theorem handleKick_apply (s : Session) (t : Trace) :
    handleKick s t = (.resolved (), t ++ kickEvents s t) := by
  unfold handleKick kickEvents
  simp only [tryCatch_apply, bind_apply, deleteIfDeletable_apply, attempt_apply,
    tryPrivateNotice_apply, pure_apply]
  cases hch : findModLogChannel s.channels <;>
  split_ifs <;> simp_all [handleMute_apply, bind_apply, attempt_apply, tryPrivateNotice_apply,
    pure_apply]

theorem handleWarn_apply (s : Session) (t : Trace) :
    handleWarn s t = (.resolved (), t ++ [⟨.channelSend, s.resolves t .channelSend⟩]) := by
  unfold handleWarn
  simp only [tryCatch_apply, attempt_apply, pure_apply]
  by_cases h : s.resolves t .channelSend <;> simp [h]

theorem handleCaptchaRequired_apply (s : Session) (t : Trace) :
    handleCaptchaRequired s t = (.resolved (), t ++ captchaEvents s t) := by
  unfold handleCaptchaRequired captchaEvents
  simp only [tryCatch_apply, bind_apply, deleteIfDeletable_apply, attempt_apply, pure_apply]
  split_ifs <;> simp_all [attempt_apply, pure_apply]
  all_goals split_ifs <;> simp_all

theorem mem_seqShapes {xs ys : List Trace} {x y : Trace} (hx : x ∈ xs) (hy : y ∈ ys) :
    x ++ y ∈ seqShapes xs ys := by
  unfold seqShapes
  simp only [List.mem_flatMap, List.mem_map]
  exact ⟨x, hx, y, hy, rfl⟩

theorem firstDelete_rejected (s : Session) (t : Trace)
    (h : s.deletable t = true ∧ s.resolves t .messageDelete = false) :
    firstDelete s t = [⟨.messageDelete, false⟩] := by
  simp [firstDelete, h.1, h.2]

theorem firstDelete_mem (s : Session) (t : Trace)
    (h : ¬ (s.deletable t = true ∧ s.resolves t .messageDelete = false)) :
    firstDelete s t ∈ optDeleteShapes := by
  unfold firstDelete optDeleteShapes
  by_cases h1 : s.deletable t = true
  · have h2 : s.resolves t .messageDelete = true := by
      cases hr : s.resolves t .messageDelete
      · exact absurd ⟨h1, hr⟩ h
      · rfl
    simp [h1, h2]
  · simp [h1]

theorem private_mem (b : Bool) : [(⟨.authorSend, b⟩ : Event)] ∈ privateShapes := by
  cases b <;> decide

theorem deleteEvents_mem (s : Session) (t : Trace) : deleteEvents s t ∈ deleteShapes := by
  unfold deleteEvents deleteShapes
  dsimp only
  split_ifs with h1 h2
  · rw [firstDelete_rejected s t h1]
    exact List.mem_append_left _ (List.mem_singleton_self _)
  · refine List.mem_append_right _ (mem_seqShapes (firstDelete_mem s t h1) ?_)
    exact List.mem_append_right _
      (mem_seqShapes (x := [⟨.channelSend, true⟩]) (List.mem_singleton_self _) (private_mem _))
  · refine List.mem_append_right _ (mem_seqShapes (firstDelete_mem s t h1) ?_)
    exact List.mem_append_left _ (List.mem_singleton_self _)

theorem captchaEvents_mem (s : Session) (t : Trace) : captchaEvents s t ∈ captchaShapes := by
  unfold captchaEvents captchaShapes
  dsimp only
  split_ifs with h1 h2 h3
  · rw [firstDelete_rejected s t h1]
    exact List.mem_append_left _ (List.mem_singleton_self _)
  · refine List.mem_append_right _ (mem_seqShapes (firstDelete_mem s t h1) ?_)
    cases s.resolves (t ++ firstDelete s t ++ [⟨.channelSend, true⟩]) .memberTimeout <;> simp
  · refine List.mem_append_right _ (mem_seqShapes (firstDelete_mem s t h1) ?_)
    simp
  · refine List.mem_append_right _ (mem_seqShapes (firstDelete_mem s t h1) ?_)
    simp

theorem muteEvents_mem (s : Session) (t : Trace) : muteEvents s t ∈ muteShapes := by
  unfold muteEvents muteShapes
  dsimp only
  split_ifs with h1 h2 h3 h4
  · rw [firstDelete_rejected s t h1]
    exact List.mem_append_left _
      (mem_seqShapes (List.mem_singleton_self _) (deleteEvents_mem s _))
  · refine List.mem_append_right _ (mem_seqShapes (firstDelete_mem s t h1) ?_)
    simp only [List.mem_append]
    exact Or.inl (Or.inl (Or.inl (deleteEvents_mem s _)))
  · refine List.mem_append_right _ (mem_seqShapes (firstDelete_mem s t h1) ?_)
    simp only [List.mem_append]
    exact Or.inr (mem_seqShapes (x := [⟨.memberTimeout, true⟩, ⟨.channelSend, true⟩])
      (List.mem_singleton_self _) (private_mem _))
  · refine List.mem_append_right _ (mem_seqShapes (firstDelete_mem s t h1) ?_)
    simp only [List.mem_append]
    exact Or.inl (Or.inr (mem_seqShapes (List.mem_singleton_self _) (deleteEvents_mem s _)))
  · refine List.mem_append_right _ (mem_seqShapes (firstDelete_mem s t h1) ?_)
    simp only [List.mem_append]
    exact Or.inl (Or.inl (Or.inr
      (mem_seqShapes (List.mem_singleton_self _) (deleteEvents_mem s _))))

theorem kickEvents_mem (s : Session) (t : Trace) : kickEvents s t ∈ kickShapes := by
  unfold kickEvents kickShapes
  dsimp only
  split_ifs with h1 h2 h3 h4 h5 h6
  · rw [firstDelete_rejected s t h1]
    exact List.mem_append_left _
      (mem_seqShapes (List.mem_singleton_self _) (muteEvents_mem s _))
  · refine List.mem_append_right _ (mem_seqShapes (firstDelete_mem s t h1) ?_)
    exact List.mem_append_left _ (muteEvents_mem s _)
  · refine List.mem_append_right _ (mem_seqShapes (firstDelete_mem s t h1) ?_)
    refine List.mem_append_right _ ?_
    refine mem_seqShapes (x := [⟨.authorSend, _⟩]) (private_mem _) ?_
    simp only [List.mem_append]
    exact Or.inl (Or.inr (by simp))
  · refine List.mem_append_right _ (mem_seqShapes (firstDelete_mem s t h1) ?_)
    refine List.mem_append_right _ ?_
    refine mem_seqShapes (x := [⟨.authorSend, _⟩]) (private_mem _) ?_
    simp only [List.mem_append]
    exact Or.inr (mem_seqShapes
      (x := [⟨.memberKick, true⟩, ⟨.channelSend, true⟩, ⟨.modLogSend, false⟩])
      (List.mem_singleton_self _) (muteEvents_mem s _))
  · refine List.mem_append_right _ (mem_seqShapes (firstDelete_mem s t h1) ?_)
    refine List.mem_append_right _ ?_
    refine mem_seqShapes (x := [⟨.authorSend, _⟩]) (private_mem _) ?_
    simp only [List.mem_append]
    exact Or.inl (Or.inr (by simp))
  · refine List.mem_append_right _ (mem_seqShapes (firstDelete_mem s t h1) ?_)
    refine List.mem_append_right _ ?_
    refine mem_seqShapes (x := [⟨.authorSend, _⟩]) (private_mem _) ?_
    simp only [List.mem_append]
    exact Or.inl (Or.inl (Or.inr (mem_seqShapes
      (x := [⟨.memberKick, true⟩, ⟨.channelSend, false⟩])
      (List.mem_singleton_self _) (muteEvents_mem s _))))
  · refine List.mem_append_right _ (mem_seqShapes (firstDelete_mem s t h1) ?_)
    refine List.mem_append_right _ ?_
    refine mem_seqShapes (x := [⟨.authorSend, _⟩]) (private_mem _) ?_
    simp only [List.mem_append]
    exact Or.inl (Or.inl (Or.inl (mem_seqShapes
      (x := [⟨.memberKick, false⟩])
      (List.mem_singleton_self _) (muteEvents_mem s _))))

/-- What `executeAction` resolves to and the trace it leaves, by action. -/
theorem executeAction_apply (s : Session) (r : ModerationResult) (t : Trace) :
    ∃ d ∈ executeShapes,
      executeAction s r t =
        (.resolved
          (if r.recommended_action = "ALLOW" then "ALLOW"
            else if r.recommended_action = "CAPTCHA" then "CAPTCHA"
            else if r.recommended_action = "WARN" then "WARN"
            else if r.recommended_action = "DELETE" then "DELETE"
            else if r.recommended_action = "MUTE" then "MUTE"
            else if r.recommended_action = "KICK" then "KICK"
            else "ALLOW"), t ++ d) := by
  unfold executeAction executeShapes
  split_ifs with h1 h2 h3 h4 h5 h6
  · exact ⟨[], by simp, by simp [tryCatch_apply, pure_apply]⟩
  · exact ⟨captchaEvents s t, by simp [captchaEvents_mem],
      by simp [tryCatch_apply, bind_apply, pure_apply, handleCaptchaRequired_apply]⟩
  · exact ⟨[⟨.channelSend, s.resolves t .channelSend⟩],
      by cases s.resolves t .channelSend <;> simp [warnShapes],
      by simp [tryCatch_apply, bind_apply, pure_apply, handleWarn_apply]⟩
  · exact ⟨deleteEvents s t, by simp [deleteEvents_mem],
      by simp [tryCatch_apply, bind_apply, pure_apply, handleDelete_apply]⟩
  · exact ⟨muteEvents s t, by simp [muteEvents_mem],
      by simp [tryCatch_apply, bind_apply, pure_apply, handleMute_apply]⟩
  · exact ⟨kickEvents s t, by simp [kickEvents_mem],
      by simp [tryCatch_apply, bind_apply, pure_apply, handleKick_apply]⟩
  · exact ⟨[], by simp, by simp [tryCatch_apply, pure_apply]⟩

theorem executeAction_mute (s : Session) (r : ModerationResult) (t : Trace)
    (h : r.recommended_action = "MUTE") :
    executeAction s r t = (.resolved "MUTE", t ++ muteEvents s t) := by
  unfold executeAction
  simp [h, tryCatch_apply, bind_apply, pure_apply, handleMute_apply]

theorem executeAction_kick (s : Session) (r : ModerationResult) (t : Trace)
    (h : r.recommended_action = "KICK") :
    executeAction s r t = (.resolved "KICK", t ++ kickEvents s t) := by
  unfold executeAction
  simp [h, tryCatch_apply, bind_apply, pure_apply, handleKick_apply]

theorem executeShapes_order : ∀ d ∈ executeShapes,
    (DeletesPrecedeNotices d ↔ NoDeleteAfterLogFailure d) ∧
      (⟨.modLogSend, false⟩ ∉ d → DeletesPrecedeNotices d) ∧
      KickFollowsPrivateNotice d ∧
      (KickAndRestResolve d → PrivateNoticesPrecedeKick d) := by
  decide!

/-! ## The classifier: score, level, gate and action table -/

/-- C1: for every input, on the CAPTCHA-gated path and on the full-analysis
path alike, the risk score returned by `analyzeMessage` lies between 0 and
100. -/
theorem risk_score_bounds (toLowerCase : JsString → JsString) (input : ModerationInput) :
    0 ≤ (analyzeMessage toLowerCase input).risk_score ∧
      (analyzeMessage toLowerCase input).risk_score ≤ 100 := by
  refine ⟨Nat.zero_le _, ?_⟩
  unfold analyzeMessage
  split
  · simp [captchaResult]
  · exact Nat.min_le_right _ _

/-- C2: the risk level returned by `analyzeMessage` is `determineRiskLevel`
of the returned score, so it is SAFE exactly when the score is at most 30,
SUSPICIOUS exactly when the score is above 30 and at most 65, DANGEROUS
exactly when the score is above 65; and `determineRiskLevel` is monotonic for
the order SAFE < SUSPICIOUS < DANGEROUS. -/
theorem risk_level_from_score (toLowerCase : JsString → JsString) (input : ModerationInput) :
    (analyzeMessage toLowerCase input).risk_level =
        determineRiskLevel (analyzeMessage toLowerCase input).risk_score ∧
      ((analyzeMessage toLowerCase input).risk_level = "SAFE" ↔
        (analyzeMessage toLowerCase input).risk_score ≤ 30) ∧
      ((analyzeMessage toLowerCase input).risk_level = "SUSPICIOUS" ↔
        30 < (analyzeMessage toLowerCase input).risk_score ∧
          (analyzeMessage toLowerCase input).risk_score ≤ 65) ∧
      ((analyzeMessage toLowerCase input).risk_level = "DANGEROUS" ↔
        (analyzeMessage toLowerCase input).risk_score > 65) ∧
      ∀ s1 s2 : Nat, s1 ≤ s2 →
        levelRank (determineRiskLevel s1) ≤ levelRank (determineRiskLevel s2) := by
  refine ⟨analyzeMessage_level toLowerCase input, ?_, ?_, ?_, determineRiskLevel_mono⟩
  · rw [analyzeMessage_level]; exact determineRiskLevel_safe _
  · rw [analyzeMessage_level]; exact determineRiskLevel_suspicious _
  · rw [analyzeMessage_level]; exact determineRiskLevel_dangerous _

/-- The level of scenario 5 follows its score, and a score of 30 ranks no
higher than a score of 66. -/
theorem risk_level_from_score_witness :
    ((analyzeMessage asciiLower scenario5).risk_level = "DANGEROUS" ↔
        (analyzeMessage asciiLower scenario5).risk_score > 65) ∧
      levelRank (determineRiskLevel 30) ≤ levelRank (determineRiskLevel 66) :=
  ⟨(risk_level_from_score asciiLower scenario5).2.2.2.1,
    (risk_level_from_score asciiLower scenario5).2.2.2.2 30 66 (by decide)⟩

/-- C3: when the user is not CAPTCHA-verified and the account is younger than
7 days, or the user joined less than 10 minutes ago, or has a previous
warning, `analyzeMessage` returns exactly score 50, level SUSPICIOUS, the
single category NEW_USER_UNVERIFIED and action CAPTCHA, whatever the content,
the history and the attachment, link and image flags are. -/
theorem captcha_gate_dominates (toLowerCase : JsString → JsString) (input : ModerationInput)
    (hcaptcha : input.captcha_verified = false)
    (hflag : input.user_account_age_days < 7 ∨ input.server_join_age_minutes < 10 ∨
      input.previous_warnings_count > 0) :
    analyzeMessage toLowerCase input =
      { risk_score := 50
        risk_level := "SUSPICIOUS"
        detected_categories := ["NEW_USER_UNVERIFIED"]
        recommended_action := "CAPTCHA"
        reasoning := captchaResult.reasoning } := by
  have hgate : shouldRequireCaptcha input = true := by
    simp only [shouldRequireCaptcha, hcaptcha, Bool.false_eq_true, if_false, Bool.or_eq_true,
      decide_eq_true_iff]
    tauto
  simp only [analyzeMessage, hgate, if_true]
  rfl

/-- The unverified author of the message of scenario 5, whose content alone
scores DANGEROUS, gets the fixed CAPTCHA result. -/
theorem captcha_gate_dominates_witness :
    unverifiedOffender.captcha_verified = false ∧
      unverifiedOffender.user_account_age_days < 7 ∧
      rawScore asciiLower unverifiedOffender = 105 ∧
      analyzeMessage asciiLower unverifiedOffender =
        { risk_score := 50
          risk_level := "SUSPICIOUS"
          detected_categories := ["NEW_USER_UNVERIFIED"]
          recommended_action := "CAPTCHA"
          reasoning := captchaResult.reasoning } :=
  ⟨rfl, by decide, by decide,
    captcha_gate_dominates asciiLower unverifiedOffender rfl (Or.inl (by decide))⟩

/-- C4: `determineAction` follows the table: SAFE gives ALLOW; SUSPICIOUS
gives WARN with no warning, DELETE with one, MUTE with two or more; DANGEROUS
gives KICK when the score is at least 85 and there are at least two warnings,
otherwise MUTE when the score is at least 70, otherwise DELETE. -/
theorem determineAction_table (score warningCount : Nat) :
    determineAction score "SAFE" warningCount = "ALLOW" ∧
    (warningCount = 0 → determineAction score "SUSPICIOUS" warningCount = "WARN") ∧
    (warningCount = 1 → determineAction score "SUSPICIOUS" warningCount = "DELETE") ∧
    (warningCount ≥ 2 → determineAction score "SUSPICIOUS" warningCount = "MUTE") ∧
    (score ≥ 85 ∧ warningCount ≥ 2 →
      determineAction score "DANGEROUS" warningCount = "KICK") ∧
    (¬ (score ≥ 85 ∧ warningCount ≥ 2) → score ≥ 70 →
      determineAction score "DANGEROUS" warningCount = "MUTE") ∧
    (¬ (score ≥ 85 ∧ warningCount ≥ 2) → ¬ score ≥ 70 →
      determineAction score "DANGEROUS" warningCount = "DELETE") := by
  have h1 : ¬ ("SUSPICIOUS" = "SAFE") := by decide
  have h2 : ¬ ("DANGEROUS" = "SAFE") := by decide
  have h3 : ¬ ("DANGEROUS" = "SUSPICIOUS") := by decide
  refine ⟨by simp [determineAction], ?_, ?_, ?_, ?_, ?_, ?_⟩
  · intro h; simp only [determineAction, h1, h, if_true, if_false]
  · intro h; simp only [determineAction, h1, h, if_true, if_false]; simp
  · intro h
    have : ¬ warningCount = 0 := by omega
    have : ¬ warningCount = 1 := by omega
    simp only [determineAction, h1, if_true, if_false, *]
  · intro h; simp only [determineAction, h2, h3, if_true, if_false, h, and_self]
  · intro h h'; simp only [determineAction, h2, h3, if_true, if_false, h, h']
  · intro h h'; simp only [determineAction, h2, h3, if_true, if_false, h, h']

/-- One row of each band of the table: SUSPICIOUS with two warnings, and
DANGEROUS at scores 90, 90 with one warning, and 66. -/
theorem determineAction_table_witness :
    determineAction 50 "SUSPICIOUS" 2 = "MUTE" ∧
      determineAction 90 "DANGEROUS" 2 = "KICK" ∧
      determineAction 90 "DANGEROUS" 1 = "MUTE" ∧
      determineAction 66 "DANGEROUS" 5 = "DELETE" :=
  ⟨(determineAction_table 50 2).2.2.2.1 (by decide),
    (determineAction_table 90 2).2.2.2.2.1 ⟨by decide, by decide⟩,
    (determineAction_table 90 1).2.2.2.2.2.1 (by decide) (by decide),
    (determineAction_table 66 5).2.2.2.2.2.2 (by decide) (by decide)⟩

/-- C5: when the CAPTCHA gate does not trigger, the risk score is the sum of
the contributions, capped at 100: 15, 25 and 20 per matching spam, scam and
harassment pattern (at most 3, 3 and 2 of them), 10 for a content longer than
1500, 10 for more than 70 percent upper-case letters in a content longer than
20, 20 when the first three of at least three history entries equal the
content up to case, 15 for a history of at least five entries, 20 or 10 for an
account younger than 1 or 7 days, 15 or 8 for a join less than 5 or 30 minutes
ago, 10 for links, 5 for attachments or an image, and 10 per previous warning
up to 25. -/
theorem score_formula (toLowerCase : JsString → JsString) (input : ModerationInput)
    (hgate : shouldRequireCaptcha input = false) :
    (analyzeMessage toLowerCase input).risk_score = specScore toLowerCase input ∧
      matching spamPatterns input.message_content ≤ 3 ∧
      matching scamPatterns input.message_content ≤ 3 ∧
      matching harassmentPatterns input.message_content ≤ 2 := by
  refine ⟨?_, List.countP_le_length _, List.countP_le_length _, List.countP_le_length _⟩
  simp only [analyzeMessage, hgate, rawScore, specScore, analyzeContent_score,
    analyzeBehavior_score, analyzeAccount_score, analyzeAttachments_score, Nat.zero_add,
    Nat.max_zero, Bool.false_eq_true, if_false]
  rw [Nat.min_comm]
  congr 1
  split_ifs <;> omega

/-- Scenario 5: two harassment patterns and one scam pattern match, the
account is less than a day old and has two warnings; the sum is 105, the score
100, the level DANGEROUS and the action KICK. -/
theorem score_formula_witness :
    shouldRequireCaptcha scenario5 = false ∧
      (analyzeMessage asciiLower scenario5).risk_score = specScore asciiLower scenario5 ∧
      matching spamPatterns scenario5.message_content = 0 ∧
      matching scamPatterns scenario5.message_content = 1 ∧
      matching harassmentPatterns scenario5.message_content = 2 ∧
      rawScore asciiLower scenario5 = 105 ∧
      (analyzeMessage asciiLower scenario5).risk_score = 100 ∧
      (analyzeMessage asciiLower scenario5).risk_level = "DANGEROUS" ∧
      (analyzeMessage asciiLower scenario5).recommended_action = "KICK" :=
  ⟨rfl, (score_formula asciiLower scenario5 rfl).1, by decide, by decide, by decide, by decide,
    by decide, by decide, by decide⟩

/-! ## The executor: outcomes, degradation and ordering -/

/-- C6, as the code has it: when the member is absent or not moderatable,
`executeAction` with MUTE attempts the deletion and then runs the DELETE
handler, but the value it resolves to is MUTE, not DELETE. -/
theorem mute_degrades_to_delete (s : Session) (r : ModerationResult)
    (haction : r.recommended_action = "MUTE") (hmember : cannotModerate s.member = true) :
    executeAction s r [] =
      (.resolved "MUTE", (handleDelete s (deleteIfDeletable s []).2).2) := by
  rw [executeAction_mute s r [] haction, handleDelete_apply, deleteIfDeletable_apply]
  unfold muteEvents
  simp [hmember]

/-- With no member in the session, MUTE runs the DELETE handler and resolves
to MUTE. -/
theorem mute_degrades_to_delete_witness :
    (resultWith "MUTE").recommended_action = "MUTE" ∧
      cannotModerate absentMemberSession.member = true ∧
      executeAction absentMemberSession (resultWith "MUTE") [] =
        (.resolved "MUTE",
          (handleDelete absentMemberSession (deleteIfDeletable absentMemberSession []).2).2) :=
  ⟨rfl, rfl, mute_degrades_to_delete absentMemberSession (resultWith "MUTE") rfl rfl⟩

/-- C6 fails as stated: against a member that is not moderatable, with every
platform operation resolving, MUTE runs the DELETE handler (delete, delete,
notice, private notice) and yet `executeAction` resolves to MUTE. -/
theorem mute_reports_delete_counterexample :
    cannotModerate protectedMemberSession.member = true ∧
      executeAction protectedMemberSession (resultWith "MUTE") [] =
        (.resolved "MUTE",
          [⟨.messageDelete, true⟩, ⟨.messageDelete, true⟩, ⟨.channelSend, true⟩,
            ⟨.authorSend, true⟩]) ∧
      (executeAction protectedMemberSession (resultWith "MUTE") []).1 ≠ .resolved "DELETE" := by
  decide

/-- C7, as the code has it: when the member is absent or not kickable,
`executeAction` with KICK attempts the deletion and then runs the MUTE
handler, but the value it resolves to is KICK whatever the MUTE handler
does. -/
theorem kick_degrades_to_mute (s : Session) (r : ModerationResult)
    (haction : r.recommended_action = "KICK") (hmember : cannotKick s.member = true) :
    executeAction s r [] =
      (.resolved "KICK", (handleMute s (deleteIfDeletable s []).2).2) := by
  rw [executeAction_kick s r [] haction, handleMute_apply, deleteIfDeletable_apply]
  unfold kickEvents
  simp [hmember]

/-- Against a member that can be timed out but not kicked, KICK runs the MUTE
handler and resolves to KICK. -/
theorem kick_degrades_to_mute_witness :
    (resultWith "KICK").recommended_action = "KICK" ∧
      cannotKick unkickableMemberSession.member = true ∧
      executeAction unkickableMemberSession (resultWith "KICK") [] =
        (.resolved "KICK",
          (handleMute unkickableMemberSession
            (deleteIfDeletable unkickableMemberSession []).2).2) :=
  ⟨rfl, rfl, kick_degrades_to_mute unkickableMemberSession (resultWith "KICK") rfl rfl⟩

/-- C7 fails as stated: against a member that can be timed out but not
kicked, with every platform operation resolving, the MUTE handler mutes
(delete, delete, timeout, notice, private notice), and without a member it
degrades to the DELETE handler; in both cases `executeAction` resolves to
KICK, neither to MUTE nor to DELETE. -/
theorem kick_reports_mute_counterexample :
    cannotKick unkickableMemberSession.member = true ∧
      executeAction unkickableMemberSession (resultWith "KICK") [] =
        (.resolved "KICK",
          [⟨.messageDelete, true⟩, ⟨.messageDelete, true⟩, ⟨.memberTimeout, true⟩,
            ⟨.channelSend, true⟩, ⟨.authorSend, true⟩]) ∧
      cannotKick absentMemberSession.member = true ∧
      executeAction absentMemberSession (resultWith "KICK") [] =
        (.resolved "KICK",
          [⟨.messageDelete, true⟩, ⟨.messageDelete, true⟩, ⟨.messageDelete, true⟩,
            ⟨.channelSend, true⟩, ⟨.authorSend, true⟩]) := by
  decide

/-- C8: `executeAction` never propagates a failure: for every moderation
result, every member and every behaviour of the platform operations it
resolves, and the value is one of ALLOW, CAPTCHA, WARN, DELETE, MUTE, KICK,
ERROR. -/
theorem executeAction_resolves (s : Session) (r : ModerationResult) (t : Trace) :
    ∃ v, (executeAction s r t).1 = .resolved v ∧
      v ∈ ["ALLOW", "CAPTCHA", "WARN", "DELETE", "MUTE", "KICK", "ERROR"] := by
  obtain ⟨d, _, he⟩ := executeAction_apply s r t
  refine ⟨_, by rw [he], ?_⟩
  split_ifs <;> simp

/-- C9, as the code has it: in every call of `executeAction`, (a) every
message-deletion attempt precedes every posted public notice exactly when no
deletion is attempted after a rejected send to the moderation-log channel,
hence whenever no such send rejects; (b) a kick is attempted at most once, and
directly after a private-notice attempt; (c) when the kick and every operation
attempted after it resolve, no private notice is attempted after the kick. -/
theorem ordering_of_deletes_notices_and_kick (s : Session) (r : ModerationResult) :
    (DeletesPrecedeNotices (executeAction s r []).2 ↔
        NoDeleteAfterLogFailure (executeAction s r []).2) ∧
      (⟨.modLogSend, false⟩ ∉ (executeAction s r []).2 →
        DeletesPrecedeNotices (executeAction s r []).2) ∧
      KickFollowsPrivateNotice (executeAction s r []).2 ∧
      (KickAndRestResolve (executeAction s r []).2 →
        PrivateNoticesPrecedeKick (executeAction s r []).2) := by
  obtain ⟨d, hd, he⟩ := executeAction_apply s r []
  rw [he]
  exact executeShapes_order d hd

/-- A kick in which every operation resolves keeps both orders: delete,
private notice, kick, public notice, moderation-log entry.  A kick whose
public notice rejects has no rejected moderation-log send, so its deletions
still precede its posted notice; and a kick after which every notice rejects
keeps both orders although an operation rejected after the kick. -/
theorem ordering_of_deletes_notices_and_kick_witness :
    (executeAction smoothSession (resultWith "KICK") []).2 =
        [⟨.messageDelete, true⟩, ⟨.authorSend, true⟩, ⟨.memberKick, true⟩,
          ⟨.channelSend, true⟩, ⟨.modLogSend, true⟩] ∧
      KickAndRestResolve (executeAction smoothSession (resultWith "KICK") []).2 ∧
      DeletesPrecedeNotices (executeAction smoothSession (resultWith "KICK") []).2 ∧
      PrivateNoticesPrecedeKick (executeAction smoothSession (resultWith "KICK") []).2 ∧
      DeletesPrecedeNotices (executeAction noticeFailSession (resultWith "KICK") []).2 ∧
      (executeAction noticesFailSession (resultWith "KICK") []).2 =
        [⟨.authorSend, true⟩, ⟨.memberKick, true⟩, ⟨.channelSend, false⟩,
          ⟨.channelSend, false⟩] ∧
      DeletesPrecedeNotices (executeAction noticesFailSession (resultWith "KICK") []).2 ∧
      PrivateNoticesPrecedeKick (executeAction noticesFailSession (resultWith "KICK") []).2 :=
  ⟨by decide, by decide,
    (ordering_of_deletes_notices_and_kick smoothSession (resultWith "KICK")).2.1 (by decide),
    (ordering_of_deletes_notices_and_kick smoothSession (resultWith "KICK")).2.2.2 (by decide),
    (ordering_of_deletes_notices_and_kick noticeFailSession (resultWith "KICK")).2.1
      (by decide),
    by decide,
    (ordering_of_deletes_notices_and_kick noticesFailSession (resultWith "KICK")).2.1
      (by decide),
    by decide⟩

/-- C9 fails as stated.  When the send to the moderation-log channel rejects
after a successful kick, the fallback attempts a deletion after the public
notice was posted and sends a private notice after the kick.  When the public
notice after the kick rejects, the deletions still precede the posted notice
but the fallback sends a private notice after the kick.  When the kick itself
rejects, the fallback sends a private notice after the kick attempt. -/
theorem ordering_counterexample :
    (executeAction modLogFailSession (resultWith "KICK") []).2 =
        [⟨.messageDelete, true⟩, ⟨.authorSend, true⟩, ⟨.memberKick, true⟩,
          ⟨.channelSend, true⟩, ⟨.modLogSend, false⟩, ⟨.messageDelete, true⟩,
          ⟨.memberTimeout, true⟩, ⟨.channelSend, true⟩, ⟨.authorSend, true⟩] ∧
      ¬ DeletesPrecedeNotices (executeAction modLogFailSession (resultWith "KICK") []).2 ∧
      ¬ PrivateNoticesPrecedeKick (executeAction modLogFailSession (resultWith "KICK") []).2 ∧
      (executeAction noticeFailSession (resultWith "KICK") []).2 =
        [⟨.messageDelete, true⟩, ⟨.authorSend, true⟩, ⟨.memberKick, true⟩,
          ⟨.channelSend, false⟩, ⟨.messageDelete, true⟩, ⟨.memberTimeout, true⟩,
          ⟨.channelSend, true⟩, ⟨.authorSend, true⟩] ∧
      DeletesPrecedeNotices (executeAction noticeFailSession (resultWith "KICK") []).2 ∧
      ¬ PrivateNoticesPrecedeKick (executeAction noticeFailSession (resultWith "KICK") []).2 ∧
      (executeAction kickFailSession (resultWith "KICK") []).2 =
        [⟨.messageDelete, true⟩, ⟨.authorSend, true⟩, ⟨.memberKick, false⟩,
          ⟨.messageDelete, true⟩, ⟨.memberTimeout, true⟩, ⟨.channelSend, true⟩,
          ⟨.authorSend, true⟩] ∧
      DeletesPrecedeNotices (executeAction kickFailSession (resultWith "KICK") []).2 ∧
      ¬ PrivateNoticesPrecedeKick (executeAction kickFailSession (resultWith "KICK") []).2 := by
  decide

/-- C10, as the code has it: for a KICK against a kickable member in which
the delete, the kick and the public notice succeed and the send to the
moderation-log channel rejects, `executeAction` resolves to KICK; the
rejection is caught by the handler of `handleKick`, which runs the MUTE
handler from there, so the trace continues with that handler's operations. -/
theorem modlog_failure_reenters_mute (s : Session) (r : ModerationResult)
    (haction : r.recommended_action = "KICK") (hmember : cannotKick s.member = false)
    (hchannel : (findModLogChannel s.channels).isSome = true)
    (hdelete : ¬ (s.deletable [] = true ∧ s.resolves [] .messageDelete = false))
    (hkick : s.resolves
      (firstDelete s [] ++ [⟨.authorSend, s.resolves (firstDelete s []) .authorSend⟩])
      .memberKick = true)
    (hnotice : s.resolves
      (firstDelete s [] ++
        [⟨.authorSend, s.resolves (firstDelete s []) .authorSend⟩, ⟨.memberKick, true⟩])
      .channelSend = true)
    (hlog : s.resolves (kickedAndNotified s) .modLogSend = false) :
    executeAction s r [] =
      (.resolved "KICK", (handleMute s (kickedAndNotified s ++ [⟨.modLogSend, false⟩])).2) := by
  rw [executeAction_kick s r [] haction, handleMute_apply]
  unfold kickedAndNotified at hlog ⊢
  unfold kickEvents
  simp_all

/-- In `modLogFailSession` the hypotheses hold, and the MUTE handler that runs
after the rejected send attempts the deletion again, times the member out,
posts a notice and sends a private notice. -/
theorem modlog_failure_reenters_mute_witness :
    kickedAndNotified modLogFailSession =
        [⟨.messageDelete, true⟩, ⟨.authorSend, true⟩, ⟨.memberKick, true⟩,
          ⟨.channelSend, true⟩] ∧
      modLogFailSession.resolves (kickedAndNotified modLogFailSession) .modLogSend = false ∧
      executeAction modLogFailSession (resultWith "KICK") [] =
        (.resolved "KICK",
          (handleMute modLogFailSession
            (kickedAndNotified modLogFailSession ++ [⟨.modLogSend, false⟩])).2) :=
  ⟨by decide, by decide,
    modlog_failure_reenters_mute modLogFailSession (resultWith "KICK") rfl rfl (by decide)
      (by decide) (by decide) (by decide) (by decide)⟩

/-- C10 fails as stated: with a kickable member, the delete, the kick and the
public notice resolving and the send to the moderation-log channel rejecting,
`executeAction` resolves to KICK but four more operations follow the rejected
send: a second delete attempt, a timeout, a notice and a private notice. -/
theorem modlog_failure_counterexample :
    cannotKick modLogFailSession.member = false ∧
      (findModLogChannel modLogFailSession.channels).isSome = true ∧
      executeAction modLogFailSession (resultWith "KICK") [] =
        (.resolved "KICK",
          [⟨.messageDelete, true⟩, ⟨.authorSend, true⟩, ⟨.memberKick, true⟩,
            ⟨.channelSend, true⟩, ⟨.modLogSend, false⟩] ++
          [⟨.messageDelete, true⟩, ⟨.memberTimeout, true⟩, ⟨.channelSend, true⟩,
            ⟨.authorSend, true⟩]) := by
  decide

/-! ## The log-channel lookup, degenerate input and the reported value -/

theorem findModLogChannel_some_iff (channels : List Channel) (ch : Channel) :
    findModLogChannel channels = some ch ↔
      ∃ earlier name later, possibleNames = earlier ++ name :: later ∧
        (∀ m ∈ earlier, ∀ c ∈ channels, ¬ isTextNamed m c) ∧
        isTextNamed name ch ∧
        ∃ before after, channels = before ++ ch :: after ∧
          ∀ c ∈ before, ¬ isTextNamed name c := by
  have hp : ∀ (name : String) (c : Channel),
      (!(c.name == name && c.isTextBased)) = true ↔ ¬ (c.name = name ∧ c.isTextBased = true) := by
    intro name c
    rw [Bool.not_eq_true', ← Bool.not_eq_true, Bool.and_eq_true, beq_iff_eq]
  unfold findModLogChannel isTextNamed
  rw [List.findSome?_eq_some_iff]
  constructor
  · rintro ⟨l1, name, l2, hnames, hfind, hnone⟩
    rw [List.find?_eq_some] at hfind
    obtain ⟨hch0, before, after, hch, hbefore⟩ := hfind
    refine ⟨l1, name, l2, hnames, ?_, by simpa using hch0, before, after, hch, ?_⟩
    · intro m hm c hc
      have := hnone m hm
      rw [List.find?_eq_none] at this
      simpa using this c hc
    · intro c hc
      exact (hp name c).1 (hbefore c hc)
  · rintro ⟨l1, name, l2, hnames, hnone, hch0, before, after, hch, hbefore⟩
    refine ⟨l1, name, l2, hnames, ?_, ?_⟩
    · rw [List.find?_eq_some]
      exact ⟨by simpa using hch0, before, after, hch, fun c hc => (hp name c).2 (hbefore c hc)⟩
    · intro m hm
      rw [List.find?_eq_none]
      intro c hc
      simpa using hnone m hm c hc

theorem findModLogChannel_none_iff (channels : List Channel) :
    findModLogChannel channels = none ↔
      ∀ c ∈ channels, c.isTextBased = true → c.name ∉ possibleNames := by
  unfold findModLogChannel
  rw [List.findSome?_eq_none_iff]
  constructor
  · intro h c hc htext hname
    have := h c.name hname
    rw [List.find?_eq_none] at this
    simpa [htext] using this c hc
  · intro h name hname
    rw [List.find?_eq_none]
    intro c hc
    simp only [Bool.and_eq_true, beq_iff_eq, not_and]
    intro heq htext
    exact absurd (heq ▸ hname) (h c hc htext)


theorem analyzeContent_nil : analyzeContent [] = ⟨[], 0⟩ := by decide

theorem analyzeBehavior_nil (toLowerCase : JsString → JsString) (content : JsString) :
    analyzeBehavior toLowerCase [] content = ⟨[], 0⟩ := by
  simp [analyzeBehavior]

theorem shouldRequireCaptcha_verified (input : ModerationInput)
    (h : input.captcha_verified = true) : shouldRequireCaptcha input = false := by
  simp [shouldRequireCaptcha, h]

theorem excessiveCaps_not_mem_account (age join : Nat) :
    "EXCESSIVE_CAPS" ∉ (analyzeAccount age join).categories := by
  simp only [analyzeAccount, Analysis.add]
  split_ifs <;> decide

theorem excessiveCaps_not_mem_attachments (a l i : Bool) :
    "EXCESSIVE_CAPS" ∉ (analyzeAttachments a l i).categories := by
  cases a <;> cases l <;> cases i <;> decide

/-- C11: `findModLogChannel` returns the first text-capable match in
name-priority order: it returns a channel exactly when that channel is
text-based, carries the earliest of the names mod-log, modlog, mod-logs,
audit-log, logs that some text-based channel of the guild carries, and is the
first such channel of the collection; it returns nothing exactly when no
text-based channel carries any of the five names. -/
theorem findModLogChannel_first_match (channels : List Channel) :
    possibleNames = ["mod-log", "modlog", "mod-logs", "audit-log", "logs"] ∧
      (∀ ch, findModLogChannel channels = some ch ↔
        ∃ earlier name later, possibleNames = earlier ++ name :: later ∧
          (∀ m ∈ earlier, ∀ c ∈ channels, ¬ isTextNamed m c) ∧
          isTextNamed name ch ∧
          ∃ before after, channels = before ++ ch :: after ∧
            ∀ c ∈ before, ¬ isTextNamed name c) ∧
      (findModLogChannel channels = none ↔
        ∀ c ∈ channels, c.isTextBased = true → c.name ∉ possibleNames) :=
  ⟨rfl, findModLogChannel_some_iff channels, findModLogChannel_none_iff channels⟩

/-- A voice channel named mod-log does not shadow the text channels: of
logs and audit-log, the one earlier in the name list is returned although
it comes later in the collection. -/
theorem findModLogChannel_first_match_witness :
    findModLogChannel sampleChannels = some { name := "audit-log", isTextBased := true } ∧
      findModLogChannel
          [{ name := "mod-log", isTextBased := false }, { name := "logs", isTextBased := true }] =
        some { name := "logs", isTextBased := true } :=
  ⟨((findModLogChannel_first_match sampleChannels).2.1 _).2
      ⟨["mod-log", "modlog", "mod-logs"], "audit-log", ["logs"], rfl,
        by simp [sampleChannels, isTextNamed], by simp [isTextNamed],
        [{ name := "mod-log", isTextBased := false }, { name := "general", isTextBased := true },
          { name := "logs", isTextBased := true }], [], rfl,
        by simp [isTextNamed]⟩,
    ((findModLogChannel_first_match _).2.1 _).2
      ⟨["mod-log", "modlog", "mod-logs", "audit-log"], "logs", [], rfl,
        by simp [isTextNamed], by simp [isTextNamed],
        [{ name := "mod-log", isTextBased := false }], [], rfl, by simp [isTextNamed]⟩⟩

/-- C12: for a verified user, empty content and empty history give a defined
result: the content analysis (whose upper-case ratio is not above 0.7) and the
behaviour analysis contribute score 0 and no category, EXCESSIVE_CAPS is not
detected, and the risk score is the sum of the account, attachment and
repeat-offender contributions capped at 100. -/
theorem degenerate_input_defined (toLowerCase : JsString → JsString) (input : ModerationInput)
    (hverified : input.captcha_verified = true) (hcontent : input.message_content = [])
    (hhistory : input.message_history = []) :
    analyzeContent input.message_content = ⟨[], 0⟩ ∧
      capsRatioAbove (input.message_content.filter isUpperAZ).length
        input.message_content.length = false ∧
      analyzeBehavior toLowerCase input.message_history input.message_content = ⟨[], 0⟩ ∧
      (analyzeMessage toLowerCase input).risk_score =
        min 100
          ((if input.user_account_age_days < 1 then 20
              else if input.user_account_age_days < 7 then 10 else 0)
            + (if input.server_join_age_minutes < 5 then 15
              else if input.server_join_age_minutes < 30 then 8 else 0)
            + ind (input.links_present = true) * 10
            + ind (input.attachments_present = true ∨ input.image_uploaded = true) * 5
            + (if input.previous_warnings_count > 0 then
                min (10 * input.previous_warnings_count) 25 else 0)) ∧
      (analyzeMessage toLowerCase input).detected_categories =
        (analyzeAccount input.user_account_age_days input.server_join_age_minutes).categories
          ++ (analyzeAttachments input.attachments_present input.links_present
              input.image_uploaded).categories
          ++ (if input.previous_warnings_count > 0 then ["REPEAT_OFFENDER"] else []) ∧
      "EXCESSIVE_CAPS" ∉ (analyzeMessage toLowerCase input).detected_categories ∧
      (analyzeMessage toLowerCase input).risk_level =
        determineRiskLevel (analyzeMessage toLowerCase input).risk_score ∧
      (analyzeMessage toLowerCase input).recommended_action =
        determineAction (analyzeMessage toLowerCase input).risk_score
          (analyzeMessage toLowerCase input).risk_level input.previous_warnings_count := by
  have hgate := shouldRequireCaptcha_verified input hverified
  have hcats : (analyzeMessage toLowerCase input).detected_categories =
      (analyzeAccount input.user_account_age_days input.server_join_age_minutes).categories
        ++ (analyzeAttachments input.attachments_present input.links_present
            input.image_uploaded).categories
        ++ (if input.previous_warnings_count > 0 then ["REPEAT_OFFENDER"] else []) := by
    simp only [analyzeMessage, hgate, allCategories, hcontent, hhistory, analyzeContent_nil,
      analyzeBehavior_nil, Bool.false_eq_true, if_false, List.append_nil, List.nil_append]
    split_ifs <;> simp
  refine ⟨by rw [hcontent]; exact analyzeContent_nil, by rw [hcontent]; rfl,
    by rw [hhistory]; exact analyzeBehavior_nil _ _, ?_, hcats, ?_, ?_, ?_⟩
  · simp only [analyzeMessage, hgate, rawScore, hcontent, hhistory, analyzeContent_nil,
      analyzeBehavior_nil, analyzeAccount_score, analyzeAttachments_score, Nat.zero_add,
      Nat.max_zero, Bool.false_eq_true, if_false, Nat.add_zero]
    rw [Nat.min_comm]
    congr 1
    split_ifs <;> omega
  · rw [hcats]
    simp only [List.mem_append, not_or]
    refine ⟨⟨excessiveCaps_not_mem_account _ _, excessiveCaps_not_mem_attachments _ _ _⟩, ?_⟩
    split_ifs <;> decide
  · simp only [analyzeMessage, hgate, Bool.false_eq_true, if_false]
  · simp only [analyzeMessage, hgate, Bool.false_eq_true, if_false]

/-- Empty content and history, a three-day-old account, a join two minutes
ago, an attachment and four warnings: 10 + 15 + 5 + 25 = 55, SUSPICIOUS,
MUTE. -/
theorem degenerate_input_defined_witness :
    analyzeContent degenerateInput.message_content = ⟨[], 0⟩ ∧
      (analyzeMessage asciiLower degenerateInput).risk_score = 55 ∧
      (analyzeMessage asciiLower degenerateInput).detected_categories =
        ["NEW_ACCOUNT", "IMMEDIATE_POST_JOIN", "HAS_ATTACHMENTS", "REPEAT_OFFENDER"] ∧
      "EXCESSIVE_CAPS" ∉ (analyzeMessage asciiLower degenerateInput).detected_categories ∧
      (analyzeMessage asciiLower degenerateInput).recommended_action = "MUTE" :=
  ⟨(degenerate_input_defined asciiLower degenerateInput rfl rfl rfl).1,
    by decide, by decide,
    (degenerate_input_defined asciiLower degenerateInput rfl rfl rfl).2.2.2.2.2.1,
    by decide⟩

/-- C13: the value `executeAction` resolves to depends on `recommended_action`
alone: it is the recommended action when that is one of ALLOW, CAPTCHA, WARN,
DELETE, MUTE, KICK and ALLOW otherwise, whatever the member and the outcomes
of the platform operations; it is never ERROR. -/
theorem executeAction_returns_recommended (s : Session) (r : ModerationResult) (t : Trace) :
    (executeAction s r t).1 =
        .resolved
          (if r.recommended_action ∈ ["ALLOW", "CAPTCHA", "WARN", "DELETE", "MUTE", "KICK"] then
            r.recommended_action
          else "ALLOW") ∧
      (executeAction s r t).1 ≠ .resolved "ERROR" ∧
      ∀ (s2 : Session) (r2 : ModerationResult) (t2 : Trace),
        r2.recommended_action = r.recommended_action →
          (executeAction s2 r2 t2).1 = (executeAction s r t).1 := by
  obtain ⟨d, _, he⟩ := executeAction_apply s r t
  refine ⟨?_, ?_, ?_⟩
  · rw [he]
    simp only [List.mem_cons, List.mem_singleton, List.not_mem_nil, or_false]
    split_ifs <;> simp_all
  · rw [he]
    simp only [ne_eq, Completion.resolved.injEq]
    split_ifs <;> decide
  · intro s2 r2 t2 h
    obtain ⟨d2, _, he2⟩ := executeAction_apply s2 r2 t2
    rw [he, he2, h]

/-- A KICK whose moderation-log send rejects and which falls back to the MUTE
handler resolves to the same value as a KICK in which everything resolves. -/
theorem executeAction_returns_recommended_witness :
    (executeAction modLogFailSession (resultWith "KICK") []).1 =
        (executeAction smoothSession (resultWith "KICK") []).1 ∧
      (executeAction smoothSession (resultWith "KICK") []).1 = .resolved "KICK" ∧
      (executeAction smoothSession (resultWith "BAN") []).1 = .resolved "ALLOW" :=
  ⟨(executeAction_returns_recommended smoothSession (resultWith "KICK") []).2.2
      modLogFailSession (resultWith "KICK") [] rfl,
    (executeAction_returns_recommended smoothSession (resultWith "KICK") []).1,
    (executeAction_returns_recommended smoothSession (resultWith "BAN") []).1⟩

/-- C14: each handler on the degradation path attempts the deletion again,
and a rejected repeat aborts the fallback: for a KICK against a member that
cannot be kicked (whether or not it can be moderated), with the message
deletable throughout, the first delete resolving and every later delete
rejecting, the trace is exactly three delete attempts, with no timeout, kick,
notice or private message. -/
theorem repeat_delete_aborts_fallback (s : Session) (r : ModerationResult)
    (haction : r.recommended_action = "KICK")
    (hkick : cannotKick s.member = true)
    (hdeletable : ∀ t, s.deletable t = true)
    (hfirst : s.resolves [] .messageDelete = true)
    (hlater : ∀ t, ⟨.messageDelete, true⟩ ∈ t → s.resolves t .messageDelete = false) :
    executeAction s r [] =
      (.resolved "KICK",
        [⟨.messageDelete, true⟩, ⟨.messageDelete, false⟩, ⟨.messageDelete, false⟩]) := by
  have h1 : s.resolves [⟨.messageDelete, true⟩] .messageDelete = false :=
    hlater _ (by simp)
  have h2 : s.resolves [⟨.messageDelete, true⟩, ⟨.messageDelete, false⟩] .messageDelete
      = false := hlater _ (by simp)
  rw [executeAction_kick s r [] haction]
  simp [kickEvents, muteEvents, deleteEvents, firstDelete, hdeletable, hfirst, h1, h2, hkick]

/-- In `deleteOnceSession` the trace of a KICK is three delete attempts. -/
theorem repeat_delete_aborts_fallback_witness :
    cannotKick deleteOnceSession.member = true ∧
      cannotModerate deleteOnceSession.member = false ∧
      executeAction deleteOnceSession (resultWith "KICK") [] =
        (.resolved "KICK",
          [⟨.messageDelete, true⟩, ⟨.messageDelete, false⟩, ⟨.messageDelete, false⟩]) :=
  ⟨rfl, rfl,
    repeat_delete_aborts_fallback deleteOnceSession (resultWith "KICK") rfl rfl
      (fun _ => rfl) rfl
      (fun t ht => by simp [deleteOnceSession, ht])⟩

end Bcbot
